import Mathlib

/-!
Shallow embedding of `sky/clouds/service_catalog/data_fetchers/fetch_denvr_cloud.py`.

The script authenticates against the Denvr Cloud REST API, fetches per-cluster
VM availability, and writes a CSV catalog.  We embed the Python values the
script manipulates as a JSON value type, model the HTTP layer as explicit
response records handed to each function, and model Python exceptions with
`Except`.  CSV rows are modelled as the list of Python values passed to
`writer.writerow` (stringification by the csv module is not needed by any
property below, which all speak about which values land in which column).
-/

/-- JSON values as received from the API and as written to CSV cells.
Numbers are embedded as integers; no claim performs numeric arithmetic on
fetched numbers, they are only moved around unchanged. -/
inductive Json where
  | null
  | bool (b : Bool)
  | num (n : Int)
  | str (s : String)
  | arr (elems : List Json)
  | obj (fields : List (String × Json))

/-- Python exceptions that the script can raise, by their Python class.
`httpError` is `requests.exceptions.HTTPError` carrying the status code;
`jsonDecodeError` is raised by `response.json()` on a non-JSON body. -/
inductive PyError where
  | httpError (status : Nat)
  | jsonDecodeError
  | attributeError
  | typeError
  | keyError
  | assertionError
deriving DecidableEq

/-- An HTTP response as observed by the script through `requests`:
the final status code and the JSON body (`none` when the body is not
valid JSON, in which case `response.json()` raises). -/
structure HttpResponse where
  status : Nat
  body : Option Json

/-- Containment of `needle` as a contiguous infix of `hay` (over characters). -/
def isInfixList (needle : List Char) (hay : List Char) : Bool :=
  match hay with
  | [] => needle.isEmpty
  | _ :: rest => needle.isPrefixOf hay || isInfixList needle rest

/-- Python's `pat in s` substring test on strings. -/
def strContains (s pat : String) : Bool :=
  isInfixList pat.data s.data

/-- Python's `d.get(k)` on a dict `fs` (default `None`), restricted to the
success case: first binding of `k`, else `null`. -/
def lookupD (fs : List (String × Json)) (k : String) : Json :=
  (List.lookup k fs).getD Json.null

/-- Python's `j.get(k, d)`: dictionaries answer the lookup (with default `d`);
any other value has no `.get` attribute and raises `AttributeError`. -/
def pyGetD (j : Json) (k : String) (d : Json) : Except PyError Json :=
  match j with
  | .obj fs => .ok ((List.lookup k fs).getD d)
  | _ => .error .attributeError

/-- Python's `j[k]` subscript with a string key: dictionaries answer the
lookup (`KeyError` when absent); any other value raises `TypeError`. -/
def pySubscript (j : Json) (k : String) : Except PyError Json :=
  match j with
  | .obj fs =>
    match List.lookup k fs with
    | some v => .ok v
    | none => .error .keyError
  | _ => .error .typeError

/-- Python's `needle in container` for a string needle: substring test on
strings, element membership on lists (string elements only can compare equal
to a string), key membership on dicts, `TypeError` otherwise. -/
def pyIn (needle : String) (container : Json) : Except PyError Bool :=
  match container with
  | .str s => .ok (strContains s needle)
  | .arr xs => .ok (xs.any fun e => match e with | .str s => s == needle | _ => false)
  | .obj fs => .ok (fs.any fun p => p.1 == needle)
  | _ => .error .typeError

/-- Python's `for x in j`: lists iterate their elements, strings their
one-character substrings, dicts their keys; other values raise `TypeError`. -/
def pyIter (j : Json) : Except PyError (List Json) :=
  match j with
  | .arr xs => .ok xs
  | .str s => .ok (s.data.map fun c => .str (String.mk [c]))
  | .obj fs => .ok (fs.map fun p => Json.str p.1)
  | _ => .error .typeError

/-- Statuses for which `requests.Response.raise_for_status` raises `HTTPError`:
exactly the 4xx client errors and 5xx server errors. -/
def httpErrStatus (s : Nat) : Bool :=
  decide (400 ≤ s) && decide (s < 600)

/-- Dictionary `GPU_TO_MEMORY` from the source, as the insertion-ordered list
of key/value pairs (Python 3.7+ dicts iterate in insertion order).  The value
for `GENERAL` is Python `None`, embedded as `none`. -/
def GPU_TO_MEMORY : List (String × Option Nat) :=
  [("A100", some 40960),
   ("A100_80GB", some 81920),
   ("V100", some 16384),
   ("T4", some 16384),
   ("P100", some 16384),
   ("K80", some 12288),
   ("H100", some 81920),
   ("GENERAL", none)]

/-- List `CLUSTERS` from the source. -/
def CLUSTERS : List String := ["Msc1", "Hou1"]

/-- The `for gpu in GPU_TO_MEMORY.keys(): if gpu in configuration: ... break`
loop of `create_catalog`, over an arbitrary Python value `configuration`
(the loop raises `TypeError` via `pyIn` when it is not a container). -/
def find_gpu (table : List (String × Option Nat)) (configuration : Json) :
    Except PyError (Option String) :=
  match table with
  | [] => .ok none
  | (g, _) :: rest =>
    match pyIn g configuration with
    | .error e => .error e
    | .ok true => .ok (some g)
    | .ok false => find_gpu rest configuration

/-- The same first-substring-match scan specialised to a string
`configuration`, where no exception is possible. -/
def find_gpu_str (table : List (String × Option Nat)) (configuration : String) :
    Option String :=
  match table with
  | [] => none
  | (g, _) :: rest =>
    match strContains configuration g with
    | true => some g
    | false => find_gpu_str rest configuration

/-- Expression `GPU_TO_MEMORY.get(gpu_type, 0) if gpu_type else 0` from
`create_catalog`: Python `None` is embedded as `none`, integers as `some`.
A falsy `gpu_type` (absent or empty string) yields the integer `0`. -/
def gpu_memory_of (gpu_type : Option String) : Option Nat :=
  match gpu_type with
  | none => some 0
  | some g =>
    match g.isEmpty with
    | true => some 0
    | false => (GPU_TO_MEMORY.lookup g).getD (some 0)

/-- Function `classify_gpu` named by the spec: the per-offering GPU
classification that `create_catalog` performs inline on the offering's
`configuration` string, returning the matched GPU label and the memory cell
value subsequently written. -/
def classify_gpu (configuration : String) : Option String × Option Nat :=
  (find_gpu_str GPU_TO_MEMORY configuration,
   gpu_memory_of (find_gpu_str GPU_TO_MEMORY configuration))

/-- CSV cell for the `gpu_type` Python variable (`None` or a string). -/
def jsonOfOptStr (o : Option String) : Json :=
  match o with
  | none => .null
  | some s => .str s

/-- CSV cell for the `gpu_memory` Python variable (`None` or an int). -/
def jsonOfOptNat (o : Option Nat) : Json :=
  match o with
  | none => .null
  | some n => .num (Int.ofNat n)

/-- Header row written by `create_catalog`. -/
def HEADER : List Json :=
  [.str "Configuration", .str "Cluster", .str "Resource Pool", .str "Type",
   .str "Price", .str "Available", .str "Count", .str "MaxCount",
   .str "GPU_Type", .str "GPU_Memory(MiB)"]

/-- Body of the `for vm in vms` loop of `create_catalog`: the eight
`vm.get(...)` reads (all of which require `vm` to be a dict — on any other
value the first `.get` raises `AttributeError`), the GPU classification, and
the 10-column row passed to `writer.writerow`. -/
def rowOf (vm : Json) : Except PyError (List Json) :=
  match vm with
  | .obj fs =>
    match find_gpu GPU_TO_MEMORY (lookupD fs "configuration") with
    | .error e => .error e
    | .ok gpu_type =>
      .ok [lookupD fs "configuration",
           lookupD fs "cluster",
           lookupD fs "rpool",
           lookupD fs "type",
           lookupD fs "price",
           lookupD fs "available",
           lookupD fs "count",
           lookupD fs "maxCount",
           jsonOfOptStr gpu_type,
           jsonOfOptNat (gpu_memory_of gpu_type)]
  | _ => .error .attributeError

/-- Row construction over a list of offerings, stopping at the first
exception (used to phrase hypotheses about fully successful clusters). -/
def mapRows (vms : List Json) : Except PyError (List (List Json)) :=
  match vms with
  | [] => .ok []
  | vm :: rest =>
    match rowOf vm with
    | .error e => .error e
    | .ok r =>
      match mapRows rest with
      | .error e => .error e
      | .ok rs => .ok (r :: rs)

/-- The `for vm in vms` loop as executed: rows written so far are kept even
when a later offering raises (the csv writer streams rows to the file). -/
def rows_of_vms (vms : List Json) : List (List Json) × Option PyError :=
  match vms with
  | [] => ([], none)
  | vm :: rest =>
    match rowOf vm with
    | .error e => ([], some e)
    | .ok r =>
      match rows_of_vms rest with
      | (rs, err) => (r :: rs, err)

/-- Function `fetch_vms_for_cluster` from the source, applied to the response
the GET produced: `raise_for_status`, then
`response.json().get('result', \x7b\x7d).get('items', [])`. -/
def fetch_vms_for_cluster (resp : HttpResponse) : Except PyError Json :=
  match httpErrStatus resp.status with
  | true => .error (.httpError resp.status)
  | false =>
    match resp.body with
    | none => .error .jsonDecodeError
    | some j =>
      match pyGetD j "result" (.obj []) with
      | .error e => .error e
      | .ok r =>
        match pyGetD r "items" (.arr []) with
        | .error e => .error e
        | .ok items => .ok items

/-- Per-cluster step of `create_catalog`: fetch, iterate the returned value,
build one row per offering. -/
def process_cluster (resp : HttpResponse) : List (List Json) × Option PyError :=
  match fetch_vms_for_cluster resp with
  | .error e => ([], some e)
  | .ok items =>
    match pyIter items with
    | .error e => ([], some e)
    | .ok vms => rows_of_vms vms

/-- Loop `for cluster in CLUSTERS` of `create_catalog`: an exception in one
cluster keeps the rows already streamed and skips every later cluster. -/
def create_catalog_go (responses : String → HttpResponse) (clusters : List String) :
    List (List Json) × Option PyError :=
  match clusters with
  | [] => ([], none)
  | c :: cs =>
    match process_cluster (responses c) with
    | (rs, some e) => (rs, some e)
    | (rs, none) =>
      match create_catalog_go responses cs with
      | (rs2, err2) => (rs ++ rs2, err2)

/-- Function `create_catalog` from the source: the sequence of rows written
to the CSV file (header first), paired with the exception that aborted the
run, if any.  `responses` gives the HTTP response each cluster's GET
produces. -/
def create_catalog (responses : String → HttpResponse) :
    List (List Json) × Option PyError :=
  match create_catalog_go responses CLUSTERS with
  | (rs, err) => (HEADER :: rs, err)

/-- Function `authenticate` from the source, applied to the response the POST
produced: `raise_for_status`, then
`auth_data['result']['accessToken'], auth_data['result']['refreshToken']`
(the `accessToken` subscript is evaluated first). -/
def authenticate (resp : HttpResponse) : Except PyError (Json × Json) :=
  match httpErrStatus resp.status with
  | true => .error (.httpError resp.status)
  | false =>
    match resp.body with
    | none => .error .jsonDecodeError
    | some j =>
      match pySubscript j "result" with
      | .error e => .error e
      | .ok r =>
        match pySubscript r "accessToken" with
        | .error e => .error e
        | .ok a =>
          match pySubscript r "refreshToken" with
          | .error e => .error e
          | .ok b => .ok (a, b)

/-- Python's `a or b` on an optional-string `a` (argparse yields `None` for
an omitted flag): a non-empty string is truthy and short-circuits; `None`
and `""` are falsy and yield `b` unchanged. -/
def pyOr (a b : Option String) : Option String :=
  match a with
  | none => b
  | some s =>
    match s.isEmpty with
    | true => b
    | false => some s

/-- Function `get_credentials` from the source: `args.username or
os.getenv('DENVR_CLOUD_USER_EMAIL')`, likewise for the password, then the
`assert username is not None and password is not None`. -/
def get_credentials (argUsername argPassword envUser envPass : Option String) :
    Except PyError (String × String) :=
  match pyOr argUsername envUser, pyOr argPassword envPass with
  | some u, some p => .ok (u, p)
  | _, _ => .error .assertionError

/-- Module `__main__` of the source after argument parsing: credential
resolution, then authentication against the auth response, then catalog
creation against the per-cluster fetch responses.  An exception streamed out
of `create_catalog` propagates uncaught. -/
def main_run (argUsername argPassword envUser envPass : Option String)
    (authResp : HttpResponse) (responses : String → HttpResponse) :
    Except PyError (List (List Json) × Option PyError) :=
  match get_credentials argUsername argPassword envUser envPass with
  | .error e => .error e
  | .ok _ =>
    match authenticate authResp with
    | .error e => .error e
    | .ok _ =>
      match create_catalog responses with
      | (_, some e) => .error e
      | (rs, none) => .ok (rs, none)

/-! ### Helper lemmas about successful row construction -/

/-- When every offering builds its row without an exception, the streamed
loop and the all-or-nothing row construction agree. -/
lemma mapRows_to_rows_of_vms {vms : List Json} {rs : List (List Json)}
    (h : mapRows vms = .ok rs) : rows_of_vms vms = (rs, none) := by
  induction vms generalizing rs with
  | nil =>
    simp only [mapRows, Except.ok.injEq] at h
    subst h
    rfl
  | cons vm rest ih =>
    simp only [mapRows] at h
    cases hr : rowOf vm with
    | error e => rw [hr] at h; exact absurd h (by simp)
    | ok r =>
      rw [hr] at h
      cases hm : mapRows rest with
      | error e => rw [hm] at h; exact absurd h (by simp)
      | ok rs' =>
        rw [hm] at h
        simp only [Except.ok.injEq] at h
        subst h
        simp [rows_of_vms, hr, ih hm]

/-- Successful row construction yields one row per offering. -/
lemma mapRows_length {vms : List Json} {rs : List (List Json)}
    (h : mapRows vms = .ok rs) : rs.length = vms.length := by
  induction vms generalizing rs with
  | nil =>
    simp only [mapRows, Except.ok.injEq] at h
    subst h
    rfl
  | cons vm rest ih =>
    simp only [mapRows] at h
    cases hr : rowOf vm with
    | error e => rw [hr] at h; exact absurd h (by simp)
    | ok r =>
      rw [hr] at h
      cases hm : mapRows rest with
      | error e => rw [hm] at h; exact absurd h (by simp)
      | ok rs' =>
        rw [hm] at h
        simp only [Except.ok.injEq] at h
        subst h
        simp [ih hm]

/-- Successful row construction keeps the offerings' order: the i-th row is
the row of the i-th offering. -/
lemma mapRows_getElem? {vms : List Json} {rs : List (List Json)}
    (h : mapRows vms = .ok rs) (i : Nat) :
    rs[i]? = (vms[i]?).bind fun vm => (rowOf vm).toOption := by
  induction vms generalizing rs i with
  | nil =>
    simp only [mapRows, Except.ok.injEq] at h
    subst h
    simp
  | cons vm rest ih =>
    simp only [mapRows] at h
    cases hr : rowOf vm with
    | error e => rw [hr] at h; exact absurd h (by simp)
    | ok r =>
      rw [hr] at h
      cases hm : mapRows rest with
      | error e => rw [hm] at h; exact absurd h (by simp)
      | ok rs' =>
        rw [hm] at h
        simp only [Except.ok.injEq] at h
        subst h
        cases i with
        | zero => simp [hr, Except.toOption]
        | succ n => simp [ih hm n]

/-! ### C2: GPU classification scans in table order, first substring match -/

/-- C2: classification scans the GPU table keys in definition order
(A100, A100_80GB, V100, T4, P100, K80, H100, GENERAL) and returns the first
key that is a substring of the configuration together with its table value;
with no match it returns (None, 0).  In particular
`classify_gpu "H100-80GB-cluster" = ("H100", 81920)`, and
`classify_gpu "A100_80GB-node"` deterministically yields the first matching
key in that order, namely `"A100"` with 40960. -/
theorem classify_gpu_first_match :
    (∀ conf : String,
      classify_gpu conf =
        match GPU_TO_MEMORY.find? (fun p => strContains conf p.1) with
        | some p => (some p.1, p.2)
        | none => (none, some 0))
    ∧ classify_gpu "H100-80GB-cluster" = (some "H100", some 81920)
    ∧ classify_gpu "A100_80GB-node" = (some "A100", some 40960) := by
  refine ⟨fun conf => ?_, rfl, rfl⟩
  simp only [classify_gpu, GPU_TO_MEMORY]
  cases h1 : strContains conf "A100" with
  | true =>
    simp only [find_gpu_str, List.find?, h1]
    decide
  | false =>
  cases h2 : strContains conf "A100_80GB" with
  | true =>
    simp only [find_gpu_str, List.find?, h1, h2]
    decide
  | false =>
  cases h3 : strContains conf "V100" with
  | true =>
    simp only [find_gpu_str, List.find?, h1, h2, h3]
    decide
  | false =>
  cases h4 : strContains conf "T4" with
  | true =>
    simp only [find_gpu_str, List.find?, h1, h2, h3, h4]
    decide
  | false =>
  cases h5 : strContains conf "P100" with
  | true =>
    simp only [find_gpu_str, List.find?, h1, h2, h3, h4, h5]
    decide
  | false =>
  cases h6 : strContains conf "K80" with
  | true =>
    simp only [find_gpu_str, List.find?, h1, h2, h3, h4, h5, h6]
    decide
  | false =>
  cases h7 : strContains conf "H100" with
  | true =>
    simp only [find_gpu_str, List.find?, h1, h2, h3, h4, h5, h6, h7]
    decide
  | false =>
  cases h8 : strContains conf "GENERAL" with
  | true =>
    simp only [find_gpu_str, List.find?, h1, h2, h3, h4, h5, h6, h7, h8]
    decide
  | false =>
    simp only [find_gpu_str, List.find?, h1, h2, h3, h4, h5, h6, h7, h8]
    decide

/-! ### C1: which item fields land in which CSV column -/

/-- C1 (amended): each of the fields configuration, cluster, type, price,
available, count and maxCount of a fetched item appears unmodified in its
CSV column; the Resource Pool column carries the item's `rpool` field
(null when absent), not its `resourcePool` field. -/
theorem rowOf_field_round_trip (fs : List (String × Json)) (row : List Json)
    (h : rowOf (.obj fs) = .ok row) :
    row[0]? = some (lookupD fs "configuration")
    ∧ row[1]? = some (lookupD fs "cluster")
    ∧ row[2]? = some (lookupD fs "rpool")
    ∧ row[3]? = some (lookupD fs "type")
    ∧ row[4]? = some (lookupD fs "price")
    ∧ row[5]? = some (lookupD fs "available")
    ∧ row[6]? = some (lookupD fs "count")
    ∧ row[7]? = some (lookupD fs "maxCount") := by
  simp only [rowOf] at h
  cases hg : find_gpu GPU_TO_MEMORY (lookupD fs "configuration") with
  | error e => rw [hg] at h; exact absurd h (by simp)
  | ok g =>
    rw [hg] at h
    simp only [Except.ok.injEq] at h
    subst h
    exact ⟨rfl, rfl, rfl, rfl, rfl, rfl, rfl, rfl⟩

/-- Fields of the witness offering for the round-trip theorem. -/
def C1wfs : List (String × Json) :=
  [("configuration", .str "T4-micro"), ("cluster", .str "Hou1"),
   ("rpool", .str "on-demand"), ("type", .str "vm"), ("price", .num 5),
   ("available", .bool false), ("count", .num 0), ("maxCount", .num 8)]

/-- Row that `create_catalog` builds for the witness offering. -/
def C1wrow : List Json :=
  [.str "T4-micro", .str "Hou1", .str "on-demand", .str "vm", .num 5,
   .bool false, .num 0, .num 8, .str "T4", .num 16384]

/-- Witness for the round-trip theorem at a concrete offering. -/
theorem rowOf_field_round_trip_witness :
    C1wrow[0]? = some (lookupD C1wfs "configuration")
    ∧ C1wrow[1]? = some (lookupD C1wfs "cluster")
    ∧ C1wrow[2]? = some (lookupD C1wfs "rpool")
    ∧ C1wrow[3]? = some (lookupD C1wfs "type")
    ∧ C1wrow[4]? = some (lookupD C1wfs "price")
    ∧ C1wrow[5]? = some (lookupD C1wfs "available")
    ∧ C1wrow[6]? = some (lookupD C1wfs "count")
    ∧ C1wrow[7]? = some (lookupD C1wfs "maxCount") :=
  rowOf_field_round_trip C1wfs C1wrow rfl

/-- Fields of an offering that carries a `resourcePool` field (as the spec's
VmOffering record names it) but no `rpool` field. -/
def C1fields : List (String × Json) :=
  [("configuration", .str "CPU-small"), ("cluster", .str "Msc1"),
   ("resourcePool", .str "on-demand"), ("type", .str "vm"),
   ("price", .num 1), ("available", .bool true), ("count", .num 2),
   ("maxCount", .num 3)]

/-- Fetch responses delivering that single offering for cluster Msc1 and no
offerings for Hou1. -/
def C1responses : String → HttpResponse := fun c =>
  if c = "Msc1" then
    ⟨200, some (.obj [("result", .obj [("items", .arr [.obj C1fields])])])⟩
  else ⟨200, some (.obj [("result", .obj [("items", .arr [])])])⟩

/-- C1 counterexample: the offering's `resourcePool` field value
"on-demand" does not appear in the Resource Pool column (column 2) of the
row `create_catalog` writes for it — the code reads key `rpool`, which is
absent, so the column holds Python `None`. -/
theorem resourcePool_field_not_round_tripped :
    create_catalog C1responses =
      ([HEADER,
        [.str "CPU-small", .str "Msc1", Json.null, .str "vm", .num 1,
         .bool true, .num 2, .num 3, Json.null, .num 0]], none)
    ∧ List.lookup "resourcePool" C1fields = some (.str "on-demand")
    ∧ Json.null ≠ Json.str "on-demand" := by
  refine ⟨rfl, rfl, ?_⟩
  intro hcontra
  exact Json.noConfusion hcontra

/-! ### C3: one row per offering, in item order, clusters in list order -/

/-- C3: when the fetch of each cluster succeeds with an items list and every
offering builds its row, the catalog is exactly the header followed by
Msc1's rows then Hou1's rows (the fixed `CLUSTERS` order), with one row per
offering in the order the items were returned — the i-th row of a cluster's
block is the row of the i-th item, so nothing is deduplicated or merged. -/
theorem create_catalog_rows_per_cluster (responses : String → HttpResponse)
    (its1 its2 : List Json) (rs1 rs2 : List (List Json))
    (h1 : fetch_vms_for_cluster (responses "Msc1") = .ok (.arr its1))
    (h2 : mapRows its1 = .ok rs1)
    (h3 : fetch_vms_for_cluster (responses "Hou1") = .ok (.arr its2))
    (h4 : mapRows its2 = .ok rs2) :
    create_catalog responses = (HEADER :: (rs1 ++ rs2), none)
    ∧ rs1.length = its1.length
    ∧ rs2.length = its2.length
    ∧ (∀ i : Nat, rs1[i]? = (its1[i]?).bind fun vm => (rowOf vm).toOption)
    ∧ (∀ i : Nat, rs2[i]? = (its2[i]?).bind fun vm => (rowOf vm).toOption) := by
  have e1 : rows_of_vms its1 = (rs1, none) := mapRows_to_rows_of_vms h2
  have e2 : rows_of_vms its2 = (rs2, none) := mapRows_to_rows_of_vms h4
  have p1 : process_cluster (responses "Msc1") = (rs1, none) := by
    simp only [process_cluster, h1, pyIter, e1]
  have p2 : process_cluster (responses "Hou1") = (rs2, none) := by
    simp only [process_cluster, h3, pyIter, e2]
  refine ⟨?_, mapRows_length h2, mapRows_length h4,
    mapRows_getElem? h2, mapRows_getElem? h4⟩
  simp [create_catalog, CLUSTERS, create_catalog_go, p1, p2]

/-- Witness offering for Msc1 (matches A100). -/
def W3vmA : Json :=
  .obj [("configuration", .str "A100-1x"), ("cluster", .str "Msc1"),
        ("rpool", .str "on-demand"), ("type", .str "a"), ("price", .num 10),
        ("available", .bool true), ("count", .num 1), ("maxCount", .num 2)]

/-- Witness offering for Msc1 (matches V100). -/
def W3vmB : Json :=
  .obj [("configuration", .str "V100-2x"), ("cluster", .str "Msc1"),
        ("rpool", .str "on-demand"), ("type", .str "b"), ("price", .num 20),
        ("available", .bool false), ("count", .num 3), ("maxCount", .num 4)]

/-- Witness offering for Hou1 (matches K80). -/
def W3vmC : Json :=
  .obj [("configuration", .str "K80-1x"), ("cluster", .str "Hou1"),
        ("rpool", .str "on-demand"), ("type", .str "c"), ("price", .num 30),
        ("available", .bool true), ("count", .num 5), ("maxCount", .num 6)]

/-- Witness fetch responses: two items for Msc1, one for Hou1. -/
def W3responses : String → HttpResponse := fun c =>
  if c = "Msc1" then
    ⟨200, some (.obj [("result", .obj [("items", .arr [W3vmA, W3vmB])])])⟩
  else ⟨200, some (.obj [("result", .obj [("items", .arr [W3vmC])])])⟩

/-- Rows written for Msc1's two items, in order. -/
def W3rs1 : List (List Json) :=
  [[.str "A100-1x", .str "Msc1", .str "on-demand", .str "a", .num 10,
    .bool true, .num 1, .num 2, .str "A100", .num 40960],
   [.str "V100-2x", .str "Msc1", .str "on-demand", .str "b", .num 20,
    .bool false, .num 3, .num 4, .str "V100", .num 16384]]

/-- Row written for Hou1's single item. -/
def W3rs2 : List (List Json) :=
  [[.str "K80-1x", .str "Hou1", .str "on-demand", .str "c", .num 30,
    .bool true, .num 5, .num 6, .str "K80", .num 12288]]

/-- Witness: with 2 items returned for Msc1 and 1 for Hou1, the catalog is
the header plus exactly those 3 rows in order. -/
theorem create_catalog_rows_per_cluster_witness :
    create_catalog W3responses = (HEADER :: (W3rs1 ++ W3rs2), none)
    ∧ W3rs1.length = 2
    ∧ W3rs2.length = 1 := by
  have t := create_catalog_rows_per_cluster W3responses
    [W3vmA, W3vmB] [W3vmC] W3rs1 W3rs2 rfl rfl rfl rfl
  exact ⟨t.1, t.2.1, t.2.2.1⟩

/-! ### C4: which fetch statuses abort the run -/

/-- C4 (amended): a 4xx or 5xx availability-fetch status — the statuses for
which `raise_for_status` raises — aborts the whole run with the HTTPError at
that point: if Msc1's fetch has such a status, no data row at all is
written; if Msc1 succeeds and Hou1's fetch has such a status, only Msc1's
rows are written and nothing for Hou1. -/
theorem create_catalog_aborts_on_error_status (responses : String → HttpResponse)
    (its1 : List Json) (rs1 : List (List Json)) :
    (httpErrStatus (responses "Msc1").status = true →
      create_catalog responses =
        ([HEADER], some (PyError.httpError (responses "Msc1").status)))
    ∧ (httpErrStatus (responses "Hou1").status = true →
      fetch_vms_for_cluster (responses "Msc1") = .ok (.arr its1) →
      mapRows its1 = .ok rs1 →
      create_catalog responses =
        (HEADER :: rs1, some (PyError.httpError (responses "Hou1").status))) := by
  constructor
  · intro h
    have p1 : process_cluster (responses "Msc1") =
        ([], some (PyError.httpError (responses "Msc1").status)) := by
      simp only [process_cluster, fetch_vms_for_cluster, h]
    simp [create_catalog, CLUSTERS, create_catalog_go, p1]
  · intro h hf hm
    have e1 : rows_of_vms its1 = (rs1, none) := mapRows_to_rows_of_vms hm
    have p1 : process_cluster (responses "Msc1") = (rs1, none) := by
      simp only [process_cluster, hf, pyIter, e1]
    have p2 : process_cluster (responses "Hou1") =
        ([], some (PyError.httpError (responses "Hou1").status)) := by
      simp only [process_cluster, fetch_vms_for_cluster, h]
    simp [create_catalog, CLUSTERS, create_catalog_go, p1, p2]

/-- Witness responses: the Msc1 fetch answers 404. -/
def W4responses : String → HttpResponse := fun _ => ⟨404, none⟩

/-- Witness: a 404 on the first cluster aborts the run with the HTTPError
and only the header is written. -/
theorem create_catalog_aborts_on_error_status_witness :
    create_catalog W4responses = ([HEADER], some (PyError.httpError 404)) :=
  (create_catalog_aborts_on_error_status W4responses [] []).1 rfl

/-- Counterexample offering for Msc1. -/
def C4vm1 : Json :=
  .obj [("configuration", .str "A100-40g"), ("cluster", .str "Msc1"),
        ("rpool", .str "on-demand"), ("type", .str "x"), ("price", .num 2),
        ("available", .bool true), ("count", .num 1), ("maxCount", .num 2)]

/-- Counterexample offering for Hou1. -/
def C4vm2 : Json :=
  .obj [("configuration", .str "T4-small"), ("cluster", .str "Hou1"),
        ("rpool", .str "on-demand"), ("type", .str "y"), ("price", .num 3),
        ("available", .bool true), ("count", .num 4), ("maxCount", .num 5)]

/-- Counterexample responses: Msc1 answers with the non-success status 300
(not followed as a redirect and not raised by `raise_for_status`) carrying a
JSON body with one item; Hou1 answers 200 with one item. -/
def C4responses : String → HttpResponse := fun c =>
  if c = "Msc1" then
    ⟨300, some (.obj [("result", .obj [("items", .arr [C4vm1])])])⟩
  else ⟨200, some (.obj [("result", .obj [("items", .arr [C4vm2])])])⟩

/-- C4 counterexample: Msc1's fetch yields the non-success (non-2xx) status
300, yet the run does not abort: no FetchError is recorded and a data row is
still written for the subsequent cluster Hou1. -/
theorem create_catalog_no_abort_on_300 :
    (C4responses "Msc1").status = 300
    ∧ ¬(200 ≤ (C4responses "Msc1").status ∧ (C4responses "Msc1").status < 300)
    ∧ create_catalog C4responses =
        ([HEADER,
          [.str "A100-40g", .str "Msc1", .str "on-demand", .str "x", .num 2,
           .bool true, .num 1, .num 2, .str "A100", .num 40960],
          [.str "T4-small", .str "Hou1", .str "on-demand", .str "y", .num 3,
           .bool true, .num 4, .num 5, .str "T4", .num 16384]], none) := by
  exact ⟨rfl, by decide, rfl⟩

/-! ### C5: the result.items path of the fetch response -/

/-- C5 (amended): for a fetch response that `raise_for_status` lets through
and whose JSON body is an object: when `result` is absent the empty list is
returned; when `result` is an object, a missing `items` yields the empty
list and a present `items` is returned exactly; but when `result` holds a
non-object value, the chained `.get` raises AttributeError instead of
returning the empty sequence. -/
theorem fetch_vms_items_path (resp : HttpResponse) (fs : List (String × Json))
    (hst : httpErrStatus resp.status = false) (hb : resp.body = some (.obj fs)) :
    (List.lookup "result" fs = none → fetch_vms_for_cluster resp = .ok (.arr []))
    ∧ (∀ gs, List.lookup "result" fs = some (.obj gs) →
        (List.lookup "items" gs = none → fetch_vms_for_cluster resp = .ok (.arr []))
        ∧ (∀ v, List.lookup "items" gs = some v → fetch_vms_for_cluster resp = .ok v))
    ∧ (∀ r, List.lookup "result" fs = some r → (∀ gs, r ≠ Json.obj gs) →
        fetch_vms_for_cluster resp = .error PyError.attributeError) := by
  refine ⟨fun hres => ?_,
          fun gs hres => ⟨fun hit => ?_, fun v hit => ?_⟩,
          fun r hres hno => ?_⟩
  · simp [fetch_vms_for_cluster, hst, hb, pyGetD, hres]
  · simp [fetch_vms_for_cluster, hst, hb, pyGetD, hres, hit]
  · simp [fetch_vms_for_cluster, hst, hb, pyGetD, hres, hit]
  · cases r with
    | obj gs => exact absurd rfl (hno gs)
    | null => simp [fetch_vms_for_cluster, hst, hb, pyGetD, hres]
    | bool b => simp [fetch_vms_for_cluster, hst, hb, pyGetD, hres]
    | num n => simp [fetch_vms_for_cluster, hst, hb, pyGetD, hres]
    | str s => simp [fetch_vms_for_cluster, hst, hb, pyGetD, hres]
    | arr xs => simp [fetch_vms_for_cluster, hst, hb, pyGetD, hres]

/-- Witness response: 200 with body `{}` — no `result` key at all. -/
def W5resp : HttpResponse := ⟨200, some (.obj [])⟩

/-- Witness: a 200 body without the result.items path yields the empty
offerings list rather than an error. -/
theorem fetch_vms_items_path_witness :
    fetch_vms_for_cluster W5resp = .ok (.arr []) :=
  (fetch_vms_items_path W5resp [] rfl rfl).1 rfl

/-- Counterexample response: 200 with body `{"result": 0}` — the
result.items path is absent because `result` is not an object. -/
def C5resp : HttpResponse := ⟨200, some (.obj [("result", .num 0)])⟩

/-- C5 counterexample: a successful (200) response whose body lacks the
result.items path raises AttributeError (`0` has no `.get`) instead of
returning the empty sequence. -/
theorem fetch_vms_nonobject_result_raises :
    fetch_vms_for_cluster C5resp = .error PyError.attributeError
    ∧ (fetch_vms_for_cluster C5resp).isOk = false := ⟨rfl, rfl⟩

/-! ### C6: credential precedence between CLI arguments and environment -/

/-- C6 (amended): a non-empty explicit command-line credential wins over the
corresponding environment variable, and each credential independently falls
back to its environment variable when its explicit argument is omitted; an
*empty-string* explicit argument, however, is falsy in Python's `or` and
also falls back to the environment. -/
theorem get_credentials_precedence (u p eu ep : String)
    (hu : u.isEmpty = false) (hp : p.isEmpty = false) :
    get_credentials (some u) (some p) (some eu) (some ep) = .ok (u, p)
    ∧ get_credentials none (some p) (some eu) (some ep) = .ok (eu, p)
    ∧ get_credentials (some u) none (some eu) (some ep) = .ok (u, ep) := by
  refine ⟨?_, ?_, ?_⟩ <;> simp [get_credentials, pyOr, hu, hp]

/-- Witness: with both explicit arguments and both environment variables
set, the explicit values are returned; dropping one explicit argument falls
back to that environment variable only. -/
theorem get_credentials_precedence_witness :
    get_credentials (some "user@x") (some "pw") (some "env@x") (some "envpw") =
      .ok ("user@x", "pw")
    ∧ get_credentials none (some "pw") (some "env@x") (some "envpw") =
      .ok ("env@x", "pw")
    ∧ get_credentials (some "user@x") none (some "env@x") (some "envpw") =
      .ok ("user@x", "envpw") :=
  get_credentials_precedence "user@x" "pw" "env@x" "envpw" rfl rfl

/-- C6 counterexample: the explicit command-line username `""` is given and
the environment variable is also set, yet resolution returns the environment
value, not the explicit command-line value. -/
theorem get_credentials_empty_arg_falls_back :
    get_credentials (some "") (some "pw") (some "env@x") (some "envpw") =
      .ok ("env@x", "pw")
    ∧ "env@x" ≠ "" := ⟨rfl, by decide⟩

/-! ### C7: missing credentials abort before any network call -/

/-- C7: when the username (or the password) is absent from both the explicit
arguments and the environment, the run fails with the credentials assertion
(the MissingCredentialsError) — and it does so for every possible
authentication response and every possible fetch response, i.e. before any
network interaction can influence the outcome. -/
theorem get_credentials_missing_fails_before_network
    (argUsername argPassword envUser envPass : Option String)
    (authResp : HttpResponse) (responses : String → HttpResponse)
    (h : (argUsername = none ∧ envUser = none)
       ∨ (argPassword = none ∧ envPass = none)) :
    main_run argUsername argPassword envUser envPass authResp responses =
      .error PyError.assertionError := by
  rcases h with ⟨ha, he⟩ | ⟨ha, he⟩
  · subst ha; subst he
    cases hp : pyOr argPassword envPass <;>
      simp [main_run, get_credentials, pyOr, hp]
  · subst ha; subst he
    cases hu : pyOr argUsername envUser <;>
      simp [main_run, get_credentials, pyOr, hu]

/-- Witness: with no credentials anywhere, the run fails with the assertion
error, whatever the network would have answered. -/
theorem get_credentials_missing_fails_before_network_witness :
    main_run none none none none ⟨200, some (.obj [])⟩
      (fun _ => ⟨200, some (.obj [])⟩) = .error PyError.assertionError :=
  get_credentials_missing_fails_before_network none none none none
    ⟨200, some (.obj [])⟩ (fun _ => ⟨200, some (.obj [])⟩) (Or.inl ⟨rfl, rfl⟩)

/-! ### C8: token extraction by authenticate -/

/-- C8 (amended): a 4xx/5xx authentication status — what `raise_for_status`
raises on — is a fatal HTTPError; otherwise, a JSON object body whose
`result` object carries both tokens yields exactly the
(accessToken, refreshToken) pair, and a `result` object missing either token
raises the fatal KeyError (the MalformedResponseError). -/
theorem authenticate_token_extraction (resp : HttpResponse) :
    (httpErrStatus resp.status = true →
      authenticate resp = .error (PyError.httpError resp.status))
    ∧ (∀ fs gs a b, httpErrStatus resp.status = false →
        resp.body = some (.obj fs) →
        List.lookup "result" fs = some (.obj gs) →
        List.lookup "accessToken" gs = some a →
        List.lookup "refreshToken" gs = some b →
        authenticate resp = .ok (a, b))
    ∧ (∀ fs gs a, httpErrStatus resp.status = false →
        resp.body = some (.obj fs) →
        List.lookup "result" fs = some (.obj gs) →
        List.lookup "accessToken" gs = some a →
        List.lookup "refreshToken" gs = none →
        authenticate resp = .error PyError.keyError)
    ∧ (∀ fs gs, httpErrStatus resp.status = false →
        resp.body = some (.obj fs) →
        List.lookup "result" fs = some (.obj gs) →
        List.lookup "accessToken" gs = none →
        authenticate resp = .error PyError.keyError) := by
  refine ⟨fun h => ?_,
          fun fs gs a b h hb hr ha hrt => ?_,
          fun fs gs a h hb hr ha hrt => ?_,
          fun fs gs h hb hr ha => ?_⟩
  · simp [authenticate, h]
  · simp [authenticate, pySubscript, h, hb, hr, ha, hrt]
  · simp [authenticate, pySubscript, h, hb, hr, ha, hrt]
  · simp [authenticate, pySubscript, h, hb, hr, ha]

/-- Witness response: 200 with both tokens under `result`. -/
def W8resp : HttpResponse :=
  ⟨200, some (.obj [("result",
    .obj [("accessToken", .str "AT"), ("refreshToken", .str "RT")])])⟩

/-- Witness: a 200 authentication response with known tokens yields exactly
that pair. -/
theorem authenticate_token_extraction_witness :
    authenticate W8resp = .ok (.str "AT", .str "RT") :=
  (authenticate_token_extraction W8resp).2.1 _ _ _ _ rfl rfl rfl rfl rfl

/-- Counterexample response: the non-success status 300 with a well-formed
token body. -/
def C8resp : HttpResponse :=
  ⟨300, some (.obj [("result",
    .obj [("accessToken", .str "AT"), ("refreshToken", .str "RT")])])⟩

/-- C8 counterexample: a non-success (non-2xx) authentication status does
not raise — `raise_for_status` only raises on 4xx/5xx, so at status 300 the
pair is returned as if the call had succeeded. -/
theorem authenticate_no_error_on_300 :
    C8resp.status = 300
    ∧ ¬(200 ≤ C8resp.status ∧ C8resp.status < 300)
    ∧ authenticate C8resp = .ok (.str "AT", .str "RT") := ⟨rfl, by decide, rfl⟩

/-! ### C9: null memory for GENERAL vs integer 0 for no match -/

/-- C9: for an offering whose configuration string contains "GENERAL" and
none of the earlier table keys, the written GPU_Type cell is "GENERAL" and
the GPU_Memory(MiB) cell is Python None (the table's None entry) — not 0;
whereas when no key at all matches, GPU_Type is None and GPU_Memory(MiB) is
the integer 0. -/
theorem general_gpu_memory_asymmetry (fs : List (String × Json)) (conf : String)
    (hconf : List.lookup "configuration" fs = some (.str conf))
    (hA : strContains conf "A100" = false)
    (hA80 : strContains conf "A100_80GB" = false)
    (hV : strContains conf "V100" = false)
    (hT : strContains conf "T4" = false)
    (hP : strContains conf "P100" = false)
    (hK : strContains conf "K80" = false)
    (hH : strContains conf "H100" = false) :
    (strContains conf "GENERAL" = true →
      (rowOf (.obj fs)).map (fun row => (row[8]?, row[9]?)) =
        .ok (some (Json.str "GENERAL"), some Json.null))
    ∧ (strContains conf "GENERAL" = false →
      (rowOf (.obj fs)).map (fun row => (row[8]?, row[9]?)) =
        .ok (some Json.null, some (Json.num 0))) := by
  have hc : lookupD fs "configuration" = .str conf := by
    simp [lookupD, hconf]
  constructor <;> intro hG
  · simp only [rowOf, hc, GPU_TO_MEMORY, find_gpu, pyIn,
      hA, hA80, hV, hT, hP, hK, hH, hG]
    rfl
  · simp only [rowOf, hc, GPU_TO_MEMORY, find_gpu, pyIn,
      hA, hA80, hV, hT, hP, hK, hH, hG]
    rfl

/-- Witness fields: a GENERAL offering and the configuration strings for
both branches. -/
def W9fs : List (String × Json) := [("configuration", .str "GENERAL-8x")]

/-- Witness: "GENERAL-8x" yields cells ("GENERAL", None); for the no-match
branch the same theorem applies to "plain-cpu". -/
theorem general_gpu_memory_asymmetry_witness :
    (rowOf (.obj W9fs)).map (fun row => (row[8]?, row[9]?)) =
      .ok (some (Json.str "GENERAL"), some Json.null)
    ∧ (rowOf (.obj [("configuration", .str "plain-cpu")])).map
        (fun row => (row[8]?, row[9]?)) =
      .ok (some Json.null, some (Json.num 0)) :=
  ⟨(general_gpu_memory_asymmetry W9fs "GENERAL-8x" rfl
      rfl rfl rfl rfl rfl rfl rfl).1 rfl,
   (general_gpu_memory_asymmetry [("configuration", .str "plain-cpu")]
      "plain-cpu" rfl rfl rfl rfl rfl rfl rfl rfl).2 rfl⟩

/-! ### C10: a string configuration is a precondition of classification -/

/-- C10: an offering whose `configuration` key is absent or null makes the
substring test run on Python None: the row construction raises TypeError,
and when such an offering is among a cluster's items the whole run aborts
with that TypeError (here: first item of Msc1 — only the header gets
written, and Hou1 is never processed). -/
theorem configuration_null_type_error (fs : List (String × Json))
    (h : List.lookup "configuration" fs = none
       ∨ List.lookup "configuration" fs = some Json.null) :
    rowOf (.obj fs) = .error PyError.typeError
    ∧ ∀ (responses : String → HttpResponse) (rest : List Json),
        fetch_vms_for_cluster (responses "Msc1") = .ok (.arr (Json.obj fs :: rest)) →
        create_catalog responses = ([HEADER], some PyError.typeError) := by
  have hc : lookupD fs "configuration" = Json.null := by
    rcases h with h | h <;> simp [lookupD, h]
  have hrow : rowOf (.obj fs) = .error PyError.typeError := by
    simp [rowOf, hc, GPU_TO_MEMORY, find_gpu, pyIn]
  refine ⟨hrow, fun responses rest hf => ?_⟩
  have p1 : process_cluster (responses "Msc1") = ([], some PyError.typeError) := by
    simp only [process_cluster, hf, pyIter, rows_of_vms, hrow]
  simp [create_catalog, CLUSTERS, create_catalog_go, p1]

/-- Witness responses: Msc1 returns one offering that lacks the
`configuration` key. -/
def W10responses : String → HttpResponse := fun _ =>
  ⟨200, some (.obj [("result",
    .obj [("items", .arr [Json.obj [("cluster", Json.str "Msc1")]])])])⟩

/-- Witness: an offering without `configuration` raises TypeError and aborts
the whole catalog run after the header. -/
theorem configuration_null_type_error_witness :
    rowOf (.obj [("cluster", Json.str "Msc1")]) = .error PyError.typeError
    ∧ create_catalog W10responses = ([HEADER], some PyError.typeError) := by
  have t := configuration_null_type_error [("cluster", Json.str "Msc1")] (Or.inl rfl)
  exact ⟨t.1, t.2 W10responses [] rfl⟩
